import Mathlib

/-!
Verification development for the goawsloc command-line client.

The Go sources are shallowly embedded: `float64` flag values become `ℚ`
(the only operations performed on them are equality comparison with zero
and pass-through into request structures), Go `error` returns become
`Except String`, pointer-valued optional fields become `Option`, and each
service method is embedded as a pure function from the configuration and
its arguments to the request it would issue to the Location Backend
(`.ok request`) or the error it returns without issuing a call
(`.error msg`).
-/

namespace Goawsloc

/-- CLI flag set, from `Flags` in subcmds/loc/root.go. Coordinate flags are
`float64` in Go, embedded as `ℚ`. -/
structure Flags where
  countries : List String
  description : String
  indexName : String
  json : Bool
  lat : ℚ
  lon : ℚ
  text : String
  x1 : ℚ
  x2 : ℚ
  y1 : ℚ
  y2 : ℚ
  tags : List String
deriving DecidableEq

/-- Default flag values as registered in `init` of subcmds/loc/root.go:
all numeric flags default to 0, strings to "", lists to empty. -/
def defaultFlags : Flags :=
  { countries := [], description := "", indexName := "", json := false
  , lat := 0, lon := 0, text := "", x1 := 0, x2 := 0, y1 := 0, y2 := 0
  , tags := [] }

/-- `PreRunE` of `cmdSuggestion` in subcmds/loc/root.go (lines 130-150):
the sequence of guard clauses validating the bias pair and the bbox
quadruple, in source order. -/
def cmdSuggestionPreRunE (f : Flags) : Except String Unit :=
  if f.lat ≠ 0 ∧ f.lon = 0 then .error "latitude is set but longitude is not"
  else if f.lat = 0 ∧ f.lon ≠ 0 then .error "longitude is set but latitude is not"
  else if f.x1 ≠ 0 ∧ (f.x2 = 0 ∨ f.y1 = 0 ∨ f.y2 = 0) then
    .error "x1 is set but x2 or y1 or y2 is not"
  else if f.x2 ≠ 0 ∧ (f.x1 = 0 ∨ f.y1 = 0 ∨ f.y2 = 0) then
    .error "x2 is set but x1 or y1 or y2 is not"
  else if f.y1 ≠ 0 ∧ (f.x1 = 0 ∨ f.x2 = 0 ∨ f.y2 = 0) then
    .error "y1 is set but x1 or x2 or y2 is not"
  else if f.y2 ≠ 0 ∧ (f.x1 = 0 ∨ f.x2 = 0 ∨ f.y1 = 0) then
    .error "y2 is set but x1 or x2 or y1 is not"
  else .ok ()

/-- `PreRunE` of `cmdText` in subcmds/loc/root.go (lines 164-184):
textually identical to the suggestion validator. -/
def cmdTextPreRunE (f : Flags) : Except String Unit :=
  if f.lat ≠ 0 ∧ f.lon = 0 then .error "latitude is set but longitude is not"
  else if f.lat = 0 ∧ f.lon ≠ 0 then .error "longitude is set but latitude is not"
  else if f.x1 ≠ 0 ∧ (f.x2 = 0 ∨ f.y1 = 0 ∨ f.y2 = 0) then
    .error "x1 is set but x2 or y1 or y2 is not"
  else if f.x2 ≠ 0 ∧ (f.x1 = 0 ∨ f.y1 = 0 ∨ f.y2 = 0) then
    .error "x2 is set but x1 or y1 or y2 is not"
  else if f.y1 ≠ 0 ∧ (f.x1 = 0 ∨ f.x2 = 0 ∨ f.y2 = 0) then
    .error "y1 is set but x1 or x2 or y2 is not"
  else if f.y2 ≠ 0 ∧ (f.x1 = 0 ∨ f.x2 = 0 ∨ f.y1 = 0) then
    .error "y2 is set but x1 or x2 or y1 is not"
  else .ok ()

/-- Embedding of Go `strings.Split(s, "=")` for a single-character
separator, on the character list of the string: splitting an empty string
yields one empty part, and each `=` starts a new part. -/
def splitEq : List Char → List (List Char)
  | [] => [[]]
  | c :: cs =>
    match splitEq cs with
    | [] => [[]]
    | p :: ps => if c = '=' then [] :: p :: ps else (c :: p) :: ps

/-- `strings.Split(tag, "=")` at the `String` level. -/
def goSplitEq (s : String) : List String :=
  (splitEq s.data).map fun l => String.mk l

/-- Whether `pat` occurs as a contiguous substring of `s`. Used to state
that an error message names a flag. -/
def strContains (s pat : String) : Bool :=
  (List.range (s.data.length + 1)).any fun i =>
    ((s.data.drop i).take pat.data.length) = pat.data

/-- Go map insert `m[k] = v`: overwrite the binding of `k` when present,
append it otherwise. -/
def mapInsert (m : List (String × String)) (k v : String) :
    List (String × String) :=
  if m.any fun p => p.1 = k then
    m.map fun p => if p.1 = k then (k, v) else p
  else m ++ [(k, v)]

/-- The tag-parsing loop of `runCreatePlaceIndex` in subcmds/loc/setup.go
(lines 32-43): split each tag on `=`, require exactly two parts, insert
into the map, and return the error naming the tag on the first failure. -/
def parseTagsAux (acc : List (String × String)) :
    List String → Except String (List (String × String))
  | [] => .ok acc
  | t :: ts =>
    match goSplitEq t with
    | [k, v] => parseTagsAux (mapInsert acc k v) ts
    | _ => .error ("invalid tag: " ++ t)

/-- Tag parsing as performed by `runCreatePlaceIndex`, starting from the
empty map. -/
def parseTags (tags : List String) : Except String (List (String × String)) :=
  parseTagsAux [] tags

/-! ## The placesvc package (pkg/awslocation/placesvc/service.go) -/

/-- `Config` from service.go, without the runtime handles (`log`, `svc`),
which carry no request-shaping data. -/
structure Config where
  region : String
  profile : String
  indexService : String
  indexName : String
  intendedUse : String
  language : String
  pricingPlan : String
deriving DecidableEq

/-- The Go zero value `&Config{}` that `New` starts from. -/
def emptyConfig : Config :=
  { region := "", profile := "", indexService := "", indexName := ""
  , intendedUse := "", language := "", pricingPlan := "" }

/-- `LatLon` from service.go, coordinates embedded as `ℚ`. -/
structure LatLon where
  Latitude : ℚ
  Longitude : ℚ
deriving DecidableEq

/-- `Box` from service.go. -/
structure Box where
  X1 : ℚ
  Y1 : ℚ
  X2 : ℚ
  Y2 : ℚ
deriving DecidableEq

/-- `SuggestionSearch` from service.go: pointer fields are `Option`. -/
structure SuggestionSearch where
  Text : Option String
  BiasPosition : Option LatLon
  FilterBBox : Option Box
  FilterCountries : List String
  Language : Option String
deriving DecidableEq

/-- `New` from service.go (lines 88-130): apply the option functions to the
zero config, then fill the zero-valued fields with their defaults. The
`AWS_REGION` environment variable read is passed in as `envRegion`; the
AWS client construction is dropped (external collaborator). -/
def New (envRegion : String) (opts : List (Config → Config)) : Config :=
  let c := opts.foldl (fun c o => o c) emptyConfig
  let c := if c.region = "" then { c with region := envRegion } else c
  let c := if c.indexService = "" then { c with indexService := "Here" } else c
  let c := if c.intendedUse = "" then { c with intendedUse := "SingleUse" } else c
  let c := if c.language = "" then { c with language := "en" } else c
  if c.pricingPlan = "" then { c with pricingPlan := "RequestBasedUsage" } else c

/-- `SetAWSRegion` from service.go. -/
def SetAWSRegion (region : String) : Config → Config :=
  fun c => { c with region := region }

/-- `SetAWSProfile` from service.go. -/
def SetAWSProfile (profile : String) : Config → Config :=
  fun c => { c with profile := profile }

/-- `SetIndexName` from service.go. -/
def SetIndexName (indexName : String) : Config → Config :=
  fun c => { c with indexName := indexName }

/-- `SetIndexService` from service.go. -/
def SetIndexService (indexService : String) : Config → Config :=
  fun c => { c with indexService := indexService }

/-- `SetLanguage` from service.go. -/
def SetLanguage (language : String) : Config → Config :=
  fun c => { c with language := language }

/-- `SetLogger` from service.go: only stores the logger handle, which the
embedding does not carry, so it is the identity on the modelled fields. -/
def SetLogger : Config → Config := id

/-- `Config.sanity` from service.go (lines 168-173). -/
def sanity (c : Config) : Except String Unit :=
  if c.indexName = "" then .error "indexName not set" else .ok ()

/-- `location.CreatePlaceIndexInput` as populated by `CreatePlaceIndex`. -/
structure CreatePlaceIndexInput where
  dataSource : String
  intendedUse : String
  description : String
  indexName : String
  pricingPlan : String
  tags : List (String × String)
deriving DecidableEq

/-- `location.DeletePlaceIndexInput` as populated by `DeletePlaceIndex`. -/
structure DeletePlaceIndexInput where
  indexName : String
deriving DecidableEq

/-- `location.DescribePlaceIndexInput` as populated by `DescribePlaceIndex`. -/
structure DescribePlaceIndexInput where
  indexName : String
deriving DecidableEq

/-- `location.ListPlaceIndexesInput`: populated with no fields. -/
structure ListPlaceIndexesInput where
deriving DecidableEq

/-- `location.SearchPlaceIndexForPositionInput` as populated by
`SearchPlaceIndexForPosition`. -/
structure SearchPlaceIndexForPositionInput where
  indexName : String
  language : String
  position : List ℚ
deriving DecidableEq

/-- `location.SearchPlaceIndexForSuggestionsInput`: the fields this client
can populate. `biasPosition` and `filterBBox` stay `none` when the builder
does not set them. -/
structure SearchPlaceIndexForSuggestionsInput where
  indexName : String
  text : Option String
  biasPosition : Option (List ℚ)
  filterBBox : Option (List ℚ)
  filterCountries : List String
  language : Option String
deriving DecidableEq

/-- `location.SearchPlaceIndexForTextInput`: same field set as the
suggestions input. -/
structure SearchPlaceIndexForTextInput where
  indexName : String
  text : Option String
  biasPosition : Option (List ℚ)
  filterBBox : Option (List ℚ)
  filterCountries : List String
  language : Option String
deriving DecidableEq

/-- `location.UpdatePlaceIndexInput` as populated by `UpdatePlaceIndex`. -/
structure UpdatePlaceIndexInput where
  indexName : String
  intendedUse : String
  description : String
  pricingPlan : String
deriving DecidableEq

/-- `Config.CreatePlaceIndex` (service.go lines 175-191): sanity check,
then issue the request. `.ok` carries the request handed to the Backend. -/
def CreatePlaceIndex (c : Config) (description : String)
    (tags : List (String × String)) : Except String CreatePlaceIndexInput :=
  match sanity c with
  | .error e => .error e
  | .ok _ =>
    .ok { dataSource := c.indexService, intendedUse := c.intendedUse
        , description := description, indexName := c.indexName
        , pricingPlan := c.pricingPlan, tags := tags }

/-- `Config.DeletePlaceIndex` (service.go lines 193-204). -/
def DeletePlaceIndex (c : Config) : Except String DeletePlaceIndexInput :=
  match sanity c with
  | .error e => .error e
  | .ok _ => .ok { indexName := c.indexName }

/-- `Config.DescribePlaceIndex` (service.go lines 206-220): an empty
argument falls back to the configured name after the sanity check; a
nonempty argument is used as-is with no check. -/
def DescribePlaceIndex (c : Config) (indexName : String) :
    Except String DescribePlaceIndexInput :=
  if indexName = "" then
    match sanity c with
    | .error e => .error e
    | .ok _ => .ok { indexName := c.indexName }
  else .ok { indexName := indexName }

/-- `Config.ListPlaceIndexes` (service.go lines 222-227): no check, empty
request. -/
def ListPlaceIndexes (_ : Config) : Except String ListPlaceIndexesInput :=
  .ok {}

/-- `Config.SearchPlaceIndexForPosition` (service.go lines 229-238): no
sanity check; the coordinate pair is built longitude first. -/
def SearchPlaceIndexForPosition (c : Config) (latLon : LatLon) :
    Except String SearchPlaceIndexForPositionInput :=
  .ok { indexName := c.indexName, language := c.language
      , position := [latLon.Longitude, latLon.Latitude] }

/-- `Config.SearchPlaceIndexForSuggestions` (service.go lines 240-252): no
sanity check; the `BiasPosition` and `FilterBBox` lines are commented out
in the source, so those request fields are never populated. -/
def SearchPlaceIndexForSuggestions (c : Config) (search : SuggestionSearch) :
    Except String SearchPlaceIndexForSuggestionsInput :=
  .ok { indexName := c.indexName, text := search.Text
      , biasPosition := none, filterBBox := none
      , filterCountries := search.FilterCountries
      , language := some c.language }

/-- `Config.SearchPlaceIndexForText` (service.go lines 254-266): same shape
as the suggestions builder, bias and bbox likewise commented out. -/
def SearchPlaceIndexForText (c : Config) (search : SuggestionSearch) :
    Except String SearchPlaceIndexForTextInput :=
  .ok { indexName := c.indexName, text := search.Text
      , biasPosition := none, filterBBox := none
      , filterCountries := search.FilterCountries
      , language := some c.language }

/-- `Config.UpdatePlaceIndex` (service.go lines 268-282). -/
def UpdatePlaceIndex (c : Config) (description : String) :
    Except String UpdatePlaceIndexInput :=
  match sanity c with
  | .error e => .error e
  | .ok _ =>
    .ok { indexName := c.indexName, intendedUse := c.intendedUse
        , description := description, pricingPlan := c.pricingPlan }

/-! ## CLI glue (subcmds/loc) -/

/-- `setup` from subcmds/loc/root.go (lines 279-334), after the config file
has yielded `AwsProfile` and `AwsRegion`: fatal when either is empty,
otherwise construct the service config with exactly these four options. -/
def setup (awsProfile awsRegion : String) (f : Flags) (envRegion : String) :
    Except String Config :=
  if awsProfile = "" then .error "AwsProfile not set"
  else if awsRegion = "" then .error "AwsRegion not set in yaml config file"
  else .ok (New envRegion
    [SetLogger, SetAWSProfile awsProfile, SetAWSRegion awsRegion,
     SetIndexName f.indexName])

/-- The `SuggestionSearch` value built by `runSearchSuggestion` and
`runSearchText` in subcmds/loc/setup.go: bias and bbox are filled from the
flags even though the service then ignores them. -/
def buildSuggestionSearch (f : Flags) : SuggestionSearch :=
  { Text := some f.text
  , BiasPosition := some { Latitude := f.lat, Longitude := f.lon }
  , FilterBBox := some { X1 := f.x1, Y1 := f.y1, X2 := f.x2, Y2 := f.y2 }
  , FilterCountries := f.countries
  , Language := none }

/-! ## JSON model for the response envelope (subcmds/loc/setup.go)

`runSearchPosition` marshals a `PositionSummaryResults` envelope with
`encoding/json`. JSON documents are modelled as trees; numbers are held
exactly as `ℚ` (Go round-trips `float64` values through their shortest
decimal form, so the value level is what matters). Encoding follows Go
field names (the structs carry no json tags); decoding looks fields up by
name, treats `null` like an absent field, and fails on a type mismatch,
as `encoding/json.Unmarshal` does. The component types `Place`,
`SearchForPositionResult` and `SearchPlaceIndexForPositionSummary` come
from the AWS SDK (external dependency of setup.go); pointer fields are
`Option`, slices are lists, `int32` is `Int`. -/

/-- A JSON document. -/
inductive Json where
  | null : Json
  | bool (b : Bool) : Json
  | num (q : ℚ) : Json
  | str (s : String) : Json
  | arr (items : List Json) : Json
  | obj (fields : List (String × Json)) : Json

/-- `types.PlaceGeometry`: the coordinate point of a place. -/
structure PlaceGeometry where
  Point : Option (List ℚ)
deriving DecidableEq

/-- `types.Place`: the address fields of a reverse-geocoding result. -/
structure Place where
  AddressNumber : Option String
  Country : Option String
  Geometry : Option PlaceGeometry
  Interpolated : Option Bool
  Label : Option String
  Municipality : Option String
  Neighborhood : Option String
  PostalCode : Option String
  Region : Option String
  Street : Option String
  SubRegion : Option String
deriving DecidableEq

/-- `types.SearchForPositionResult`. -/
structure SearchForPositionResult where
  Distance : Option ℚ
  Place : Option Place
  PlaceId : Option String
deriving DecidableEq

/-- `types.SearchPlaceIndexForPositionSummary`. -/
structure SearchPlaceIndexForPositionSummary where
  DataSource : Option String
  Language : Option String
  MaxResults : Int
  Position : Option (List ℚ)
deriving DecidableEq

/-- `PositionSummaryResults` from subcmds/loc/setup.go (lines 17-20). -/
structure PositionSummaryResults where
  Summary : Option SearchPlaceIndexForPositionSummary
  Results : List SearchForPositionResult
deriving DecidableEq

/-- Encode an optional value: a nil pointer marshals as `null`. -/
def encodeOpt (enc : α → Json) : Option α → Json
  | none => .null
  | some a => enc a

/-- Decode an optional value: `null` yields `none`. -/
def decodeOpt (dec : Json → Option α) : Json → Option (Option α)
  | .null => some none
  | j => (dec j).map some

/-- Look a field up in a decoded object; an absent field reads as `null`
(both leave the Go field at its zero value). -/
def jGet : List (String × Json) → String → Json
  | [], _ => .null
  | (k, v) :: fs, key => if k = key then v else jGet fs key

/-- Decode a JSON string. -/
def decodeString : Json → Option String
  | .str s => some s
  | _ => none

/-- Decode a JSON bool. -/
def decodeBool : Json → Option Bool
  | .bool b => some b
  | _ => none

/-- Decode a JSON number. -/
def decodeNum : Json → Option ℚ
  | .num q => some q
  | _ => none

/-- Decode an `int32` field: the number must be integral; `null` leaves
the Go zero value. -/
def decodeInt : Json → Option Int
  | .null => some 0
  | .num q => if q.den = 1 then some q.num else none
  | _ => none

/-- Encode a `[]float64` slice (nil marshals as `null`). -/
def encodeOptNumList : Option (List ℚ) → Json
  | none => .null
  | some l => .arr (l.map Json.num)

/-- Decode a JSON array of numbers elementwise. -/
def decodeNumList : List Json → Option (List ℚ)
  | [] => some []
  | j :: js => do
    let q ← decodeNum j
    let t ← decodeNumList js
    some (q :: t)

/-- Decode a `[]float64` slice. -/
def decodeOptNumList : Json → Option (Option (List ℚ))
  | .null => some none
  | .arr js => (decodeNumList js).map some
  | _ => none

/-- Encode `types.PlaceGeometry`. -/
def encodeGeometry (g : PlaceGeometry) : Json :=
  .obj [("Point", encodeOptNumList g.Point)]

/-- Decode `types.PlaceGeometry`. -/
def decodeGeometry : Json → Option PlaceGeometry
  | .obj fs => (decodeOptNumList (jGet fs "Point")).map fun p => { Point := p }
  | _ => none

/-- Encode `types.Place`. -/
def encodePlace (p : Place) : Json :=
  .obj [ ("AddressNumber", encodeOpt Json.str p.AddressNumber)
       , ("Country", encodeOpt Json.str p.Country)
       , ("Geometry", encodeOpt encodeGeometry p.Geometry)
       , ("Interpolated", encodeOpt Json.bool p.Interpolated)
       , ("Label", encodeOpt Json.str p.Label)
       , ("Municipality", encodeOpt Json.str p.Municipality)
       , ("Neighborhood", encodeOpt Json.str p.Neighborhood)
       , ("PostalCode", encodeOpt Json.str p.PostalCode)
       , ("Region", encodeOpt Json.str p.Region)
       , ("Street", encodeOpt Json.str p.Street)
       , ("SubRegion", encodeOpt Json.str p.SubRegion) ]

/-- Decode `types.Place`. -/
def decodePlace : Json → Option Place
  | .obj fs => do
    let addressNumber ← decodeOpt decodeString (jGet fs "AddressNumber")
    let country ← decodeOpt decodeString (jGet fs "Country")
    let geometry ← decodeOpt decodeGeometry (jGet fs "Geometry")
    let interpolated ← decodeOpt decodeBool (jGet fs "Interpolated")
    let label ← decodeOpt decodeString (jGet fs "Label")
    let municipality ← decodeOpt decodeString (jGet fs "Municipality")
    let neighborhood ← decodeOpt decodeString (jGet fs "Neighborhood")
    let postalCode ← decodeOpt decodeString (jGet fs "PostalCode")
    let region ← decodeOpt decodeString (jGet fs "Region")
    let street ← decodeOpt decodeString (jGet fs "Street")
    let subRegion ← decodeOpt decodeString (jGet fs "SubRegion")
    some { AddressNumber := addressNumber, Country := country
         , Geometry := geometry, Interpolated := interpolated
         , Label := label, Municipality := municipality
         , Neighborhood := neighborhood, PostalCode := postalCode
         , Region := region, Street := street, SubRegion := subRegion }
  | _ => none

/-- Encode `types.SearchForPositionResult`. -/
def encodeResult (r : SearchForPositionResult) : Json :=
  .obj [ ("Distance", encodeOpt Json.num r.Distance)
       , ("Place", encodeOpt encodePlace r.Place)
       , ("PlaceId", encodeOpt Json.str r.PlaceId) ]

/-- Decode `types.SearchForPositionResult`. -/
def decodeResult : Json → Option SearchForPositionResult
  | .obj fs => do
    let distance ← decodeOpt decodeNum (jGet fs "Distance")
    let place ← decodeOpt decodePlace (jGet fs "Place")
    let placeId ← decodeOpt decodeString (jGet fs "PlaceId")
    some { Distance := distance, Place := place, PlaceId := placeId }
  | _ => none

/-- Encode `types.SearchPlaceIndexForPositionSummary`. -/
def encodeSummary (s : SearchPlaceIndexForPositionSummary) : Json :=
  .obj [ ("DataSource", encodeOpt Json.str s.DataSource)
       , ("Language", encodeOpt Json.str s.Language)
       , ("MaxResults", .num (s.MaxResults : ℚ))
       , ("Position", encodeOptNumList s.Position) ]

/-- Decode `types.SearchPlaceIndexForPositionSummary`. -/
def decodeSummary : Json → Option SearchPlaceIndexForPositionSummary
  | .obj fs => do
    let dataSource ← decodeOpt decodeString (jGet fs "DataSource")
    let language ← decodeOpt decodeString (jGet fs "Language")
    let maxResults ← decodeInt (jGet fs "MaxResults")
    let position ← decodeOptNumList (jGet fs "Position")
    some { DataSource := dataSource, Language := language
         , MaxResults := maxResults, Position := position }
  | _ => none

/-- Encode `PositionSummaryResults`, the envelope `runSearchPosition`
passes to `json.Marshal`. -/
def encodeEnvelope (e : PositionSummaryResults) : Json :=
  .obj [ ("Summary", encodeOpt encodeSummary e.Summary)
       , ("Results", .arr (e.Results.map encodeResult)) ]

/-- Decode a JSON array of position results elementwise. -/
def decodeResultList : List Json → Option (List SearchForPositionResult)
  | [] => some []
  | j :: js => do
    let r ← decodeResult j
    let t ← decodeResultList js
    some (r :: t)

/-- Decode `PositionSummaryResults` (`null` decodes into a nil slice). -/
def decodeEnvelope : Json → Option PositionSummaryResults
  | .obj fs => do
    let summary ← decodeOpt decodeSummary (jGet fs "Summary")
    let results ←
      match jGet fs "Results" with
      | .null => some []
      | .arr js => decodeResultList js
      | _ => none
    some { Summary := summary, Results := results }
  | _ => none

/-! ## Lemmas about splitting on `=` -/

lemma splitEq_ne_nil (l : List Char) : splitEq l ≠ [] := by
  cases l with
  | nil => simp [splitEq]
  | cons c cs =>
    simp only [splitEq]
    cases h : splitEq cs with
    | nil => simp
    | cons p ps => by_cases hc : c = '=' <;> simp [hc]

lemma splitEq_length (l : List Char) : (splitEq l).length = l.count '=' + 1 := by
  induction l with
  | nil => rfl
  | cons c cs ih =>
    cases h : splitEq cs with
    | nil => exact absurd h (splitEq_ne_nil cs)
    | cons p ps =>
      rw [h] at ih
      by_cases hc : c = '=' <;>
        simp [splitEq, h, hc, List.count_cons] at ih ⊢ <;> omega

lemma splitEq_of_not_mem (l : List Char) (h : '=' ∉ l) : splitEq l = [l] := by
  induction l with
  | nil => rfl
  | cons c cs ih =>
    simp only [List.mem_cons, not_or] at h
    rw [splitEq, ih h.2]
    simp [Ne.symm h.1]

lemma splitEq_append (k v : List Char) (hk : '=' ∉ k) (hv : '=' ∉ v) :
    splitEq (k ++ '=' :: v) = [k, v] := by
  induction k with
  | nil => simp [splitEq, splitEq_of_not_mem v hv]
  | cons c cs ih =>
    simp only [List.mem_cons, not_or] at hk
    rw [List.cons_append, splitEq, ih hk.2]
    simp [Ne.symm hk.1]

/-- C4. For every list of tag strings given to create-index, parsing maps
each string of the form "k=v" (containing exactly one `=`) to the entry
(k, v), and fails with the error "invalid tag: " followed by the offending
string for any tag string that does not contain exactly one `=` separator
(in particular "novalue" and "a=b=c"). -/
theorem createIndex_tag_parsing :
    (∀ k v : String, '=' ∉ k.data → '=' ∉ v.data →
      parseTags [k ++ "=" ++ v] = .ok [(k, v)]) ∧
    (∀ t : String, t.data.count '=' ≠ 1 →
      parseTags [t] = .error ("invalid tag: " ++ t)) := by
  constructor
  · intro k v hk hv
    have hdata : (k ++ "=" ++ v).data = k.data ++ '=' :: v.data := by
      simp [String.data_append]
    have hsplit : goSplitEq (k ++ "=" ++ v) = [k, v] := by
      rw [goSplitEq, hdata, splitEq_append k.data v.data hk hv]
      rfl
    simp [parseTags, parseTagsAux, hsplit, mapInsert]
  · intro t ht
    have hlen : (goSplitEq t).length ≠ 2 := by
      rw [goSplitEq, List.length_map, splitEq_length]
      omega
    rcases hsplit : goSplitEq t with _ | ⟨a, _ | ⟨b, _ | ⟨c, l⟩⟩⟩ <;>
      rw [hsplit] at hlen <;>
      simp [parseTags, parseTagsAux, hsplit] at hlen ⊢

/-- Witness for `createIndex_tag_parsing` at concrete tag strings. -/
theorem createIndex_tag_parsing_witness :
    parseTags ["env" ++ "=" ++ "prod"] = .ok [("env", "prod")] ∧
    parseTags ["a=b=c"] = .error ("invalid tag: " ++ "a=b=c") :=
  ⟨createIndex_tag_parsing.1 "env" "prod" (by decide) (by decide),
   createIndex_tag_parsing.2 "a=b=c" (by decide)⟩

/-- C10. Tag parsing accepts any tag string containing exactly one `=`,
even when the key or the value is empty: "=v" parses to the entry with
empty key mapped to "v", and "k=" parses to "k" mapped to the empty
string. -/
theorem createIndex_tag_parsing_empty_sides :
    parseTags ["=v"] = .ok [("", "v")] ∧ parseTags ["k="] = .ok [("k", "")] :=
  ⟨rfl, rfl⟩

/-! ## The flag validators -/

/-- C2. With the bounding-box flags at their unset (zero) default, the
pre-run validator of both the suggestion and the text commands accepts
iff latitude and longitude are both zero or both nonzero; whatever the
bounding-box flags, a nonzero latitude with a zero longitude is rejected
with "latitude is set but longitude is not", and a zero latitude with a
nonzero longitude with "longitude is set but latitude is not". -/
theorem validator_latlon_pairing :
    (∀ f : Flags, f.x1 = 0 → f.x2 = 0 → f.y1 = 0 → f.y2 = 0 →
      ((cmdSuggestionPreRunE f = .ok () ↔ (f.lat = 0 ↔ f.lon = 0)) ∧
       (cmdTextPreRunE f = .ok () ↔ (f.lat = 0 ↔ f.lon = 0)))) ∧
    (∀ f : Flags, f.lat ≠ 0 → f.lon = 0 →
      cmdSuggestionPreRunE f = .error "latitude is set but longitude is not" ∧
      cmdTextPreRunE f = .error "latitude is set but longitude is not") ∧
    (∀ f : Flags, f.lat = 0 → f.lon ≠ 0 →
      cmdSuggestionPreRunE f = .error "longitude is set but latitude is not" ∧
      cmdTextPreRunE f = .error "longitude is set but latitude is not") := by
  refine ⟨?_, ?_, ?_⟩
  · intro f hx1 hx2 hy1 hy2
    by_cases hlat : f.lat = 0 <;> by_cases hlon : f.lon = 0 <;>
      simp [cmdSuggestionPreRunE, cmdTextPreRunE, hx1, hx2, hy1, hy2, hlat, hlon]
  · intro f hlat hlon
    simp [cmdSuggestionPreRunE, cmdTextPreRunE, hlat, hlon]
  · intro f hlat hlon
    simp [cmdSuggestionPreRunE, cmdTextPreRunE, hlat, hlon]

/-- Witness for `validator_latlon_pairing` at concrete flag values. -/
theorem validator_latlon_pairing_witness :
    (cmdSuggestionPreRunE { defaultFlags with lat := 10 } =
      .error "latitude is set but longitude is not" ∧
     cmdTextPreRunE { defaultFlags with lat := 10 } =
      .error "latitude is set but longitude is not") ∧
    (cmdSuggestionPreRunE { defaultFlags with lon := 7 } =
      .error "longitude is set but latitude is not" ∧
     cmdTextPreRunE { defaultFlags with lon := 7 } =
      .error "longitude is set but latitude is not") ∧
    (cmdSuggestionPreRunE { defaultFlags with lat := 2, lon := 3 } = .ok () ↔
      ((2 : ℚ) = 0 ↔ (3 : ℚ) = 0)) :=
  ⟨validator_latlon_pairing.2.1 { defaultFlags with lat := 10 }
      (by norm_num) rfl,
   validator_latlon_pairing.2.2 { defaultFlags with lon := 7 }
      rfl (by norm_num),
   (validator_latlon_pairing.1 { defaultFlags with lat := 2, lon := 3 }
      rfl rfl rfl rfl).1⟩

/-- C3. With the bias pair passing its own check, the validator of both
search commands accepts iff all four bounding-box components are zero or
all four are nonzero; when some component is nonzero and another is zero,
it rejects (identically in both commands) with a message that names every
bounding-box flag, in particular the nonzero component and its first
missing companion. -/
theorem validator_bbox_all_or_nothing :
    (∀ f : Flags, f.lat = 0 → f.lon = 0 →
      ((cmdSuggestionPreRunE f = .ok () ↔
        ((f.x1 = 0 ∧ f.x2 = 0 ∧ f.y1 = 0 ∧ f.y2 = 0) ∨
         (f.x1 ≠ 0 ∧ f.x2 ≠ 0 ∧ f.y1 ≠ 0 ∧ f.y2 ≠ 0))) ∧
       (cmdTextPreRunE f = .ok () ↔
        ((f.x1 = 0 ∧ f.x2 = 0 ∧ f.y1 = 0 ∧ f.y2 = 0) ∨
         (f.x1 ≠ 0 ∧ f.x2 ≠ 0 ∧ f.y1 ≠ 0 ∧ f.y2 ≠ 0))))) ∧
    (∀ f : Flags, (f.lat = 0 ↔ f.lon = 0) →
      ¬((f.x1 = 0 ∧ f.x2 = 0 ∧ f.y1 = 0 ∧ f.y2 = 0) ∨
        (f.x1 ≠ 0 ∧ f.x2 ≠ 0 ∧ f.y1 ≠ 0 ∧ f.y2 ≠ 0)) →
      ∃ m, cmdSuggestionPreRunE f = .error m ∧ cmdTextPreRunE f = .error m ∧
        strContains m "x1" = true ∧ strContains m "x2" = true ∧
        strContains m "y1" = true ∧ strContains m "y2" = true) := by
  constructor
  · intro f hlat hlon
    by_cases hx1 : f.x1 = 0 <;> by_cases hx2 : f.x2 = 0 <;>
      by_cases hy1 : f.y1 = 0 <;> by_cases hy2 : f.y2 = 0 <;>
      simp [cmdSuggestionPreRunE, cmdTextPreRunE, hlat, hlon,
        hx1, hx2, hy1, hy2]
  · intro f hll hne
    have hlat : ¬(f.lat ≠ 0 ∧ f.lon = 0) := by tauto
    have hlon : ¬(f.lat = 0 ∧ f.lon ≠ 0) := by tauto
    by_cases hx1 : f.x1 = 0 <;> by_cases hx2 : f.x2 = 0 <;>
      by_cases hy1 : f.y1 = 0 <;> by_cases hy2 : f.y2 = 0 <;>
      first
      | (simp [cmdSuggestionPreRunE, cmdTextPreRunE,
           hlat, hlon, hx1, hx2, hy1, hy2]; decide)
      | tauto

/-- Witness for `validator_bbox_all_or_nothing` at concrete flag values. -/
theorem validator_bbox_all_or_nothing_witness :
    (cmdSuggestionPreRunE { defaultFlags with x1 := 1, x2 := 2, y1 := 3, y2 := 4 } =
        .ok () ↔
      (((1 : ℚ) = 0 ∧ (2 : ℚ) = 0 ∧ (3 : ℚ) = 0 ∧ (4 : ℚ) = 0) ∨
       ((1 : ℚ) ≠ 0 ∧ (2 : ℚ) ≠ 0 ∧ (3 : ℚ) ≠ 0 ∧ (4 : ℚ) ≠ 0))) ∧
    (∃ m, cmdSuggestionPreRunE { defaultFlags with x1 := 5 } = .error m ∧
      cmdTextPreRunE { defaultFlags with x1 := 5 } = .error m ∧
      strContains m "x1" = true ∧ strContains m "x2" = true ∧
      strContains m "y1" = true ∧ strContains m "y2" = true) :=
  ⟨(validator_bbox_all_or_nothing.1
      { defaultFlags with x1 := 1, x2 := 2, y1 := 3, y2 := 4 } rfl rfl).1,
   validator_bbox_all_or_nothing.2 { defaultFlags with x1 := 5 }
      (by norm_num [defaultFlags]) (by norm_num [defaultFlags])⟩

/-! ## Request shaping -/

/-- C1. For every configuration and every flag set (so whatever values
were supplied for lat, lon, x1, x2, y1, y2), the request built by the
suggestion and by the text search carries only the index name, the free
text, the country filter list, and the language; its bias-position and
bounding-box fields are `none`, even though the CLI runner fills both
into the `SuggestionSearch` it hands over. -/
theorem search_requests_drop_bias_and_bbox :
    ∀ (c : Config) (f : Flags),
      SearchPlaceIndexForSuggestions c (buildSuggestionSearch f) =
        .ok { indexName := c.indexName, text := some f.text
            , biasPosition := none, filterBBox := none
            , filterCountries := f.countries, language := some c.language } ∧
      SearchPlaceIndexForText c (buildSuggestionSearch f) =
        .ok { indexName := c.indexName, text := some f.text
            , biasPosition := none, filterBBox := none
            , filterCountries := f.countries, language := some c.language } :=
  fun _ _ => ⟨rfl, rfl⟩

/-- C6. For every configuration and every latitude/longitude input, the
position-search request's coordinate pair is ordered longitude first,
latitude second; in particular lat 40.0, lon -73.0 yields the pair
(-73.0, 40.0). -/
theorem position_request_lon_first :
    ∀ (c : Config) (lat lon : ℚ),
      SearchPlaceIndexForPosition c { Latitude := lat, Longitude := lon } =
        .ok { indexName := c.indexName, language := c.language
            , position := [lon, lat] } ∧
      (SearchPlaceIndexForPosition c { Latitude := 40, Longitude := -73 }).map
          (fun r => r.position) = .ok [-73, 40] :=
  fun _ _ _ => ⟨rfl, rfl⟩

/-- C7. For the describe operation: an empty supplied index name falls
back to the configured default, and the operation fails with the
configuration error iff that default is also empty; a nonempty supplied
name is used as-is with no configuration check. -/
theorem describe_default_fallback :
    ∀ (c : Config) (name : String),
      (name = "" → c.indexName = "" →
        DescribePlaceIndex c name = .error "indexName not set") ∧
      (name = "" → c.indexName ≠ "" →
        DescribePlaceIndex c name = .ok { indexName := c.indexName }) ∧
      (name ≠ "" → DescribePlaceIndex c name = .ok { indexName := name }) := by
  intro c name
  refine ⟨fun hn hc => ?_, fun hn hc => ?_, fun hn => ?_⟩
  · simp [DescribePlaceIndex, sanity, hn, hc]
  · simp [DescribePlaceIndex, sanity, hn, hc]
  · simp [DescribePlaceIndex, sanity, hn]

/-- Witness for `describe_default_fallback` at concrete inputs. -/
theorem describe_default_fallback_witness :
    DescribePlaceIndex emptyConfig "" = .error "indexName not set" ∧
    DescribePlaceIndex { emptyConfig with indexName := "idx" } "" =
      .ok { indexName := "idx" } ∧
    DescribePlaceIndex emptyConfig "other" = .ok { indexName := "other" } :=
  ⟨(describe_default_fallback emptyConfig "").1 rfl rfl,
   (describe_default_fallback { emptyConfig with indexName := "idx" } "").2.1
      rfl (by decide),
   (describe_default_fallback emptyConfig "other").2.2 (by decide)⟩

/-! ## The missing sanity checks (claim C5) -/

/-- C5 counterexample. With an empty index name and no configured
default, the position search does not fail with a configuration error:
it builds and issues its backend request (returns `.ok`), carrying the
empty index name. -/
theorem position_search_runs_without_index_name :
    SearchPlaceIndexForPosition emptyConfig
        { Latitude := 40, Longitude := -73 } =
      .ok { indexName := "", language := "", position := [-73, 40] } :=
  rfl

/-- C5 as amended. With the index name unset (empty) and no default
configured, create, delete, update, and describe (called without an
explicit name) fail with the configuration error "indexName not set"
before any backend call, but list, position, suggestion, and text issue
their backend requests anyway. -/
theorem sanity_check_only_on_index_mutations :
    ∀ c : Config, c.indexName = "" →
      (∀ d t, CreatePlaceIndex c d t = .error "indexName not set") ∧
      DeletePlaceIndex c = .error "indexName not set" ∧
      DescribePlaceIndex c "" = .error "indexName not set" ∧
      (∀ d, UpdatePlaceIndex c d = .error "indexName not set") ∧
      ListPlaceIndexes c = .ok {} ∧
      (∀ ll, ∃ r, SearchPlaceIndexForPosition c ll = .ok r) ∧
      (∀ s, ∃ r, SearchPlaceIndexForSuggestions c s = .ok r) ∧
      (∀ s, ∃ r, SearchPlaceIndexForText c s = .ok r) := by
  intro c hc
  refine ⟨fun d t => ?_, ?_, ?_, fun d => ?_, rfl,
    fun ll => ⟨_, rfl⟩, fun s => ⟨_, rfl⟩, fun s => ⟨_, rfl⟩⟩ <;>
    simp [CreatePlaceIndex, DeletePlaceIndex, DescribePlaceIndex,
      UpdatePlaceIndex, sanity, hc, Except.bind]

/-- Witness for `sanity_check_only_on_index_mutations` at the empty
configuration. -/
theorem sanity_check_only_on_index_mutations_witness :
    DeletePlaceIndex emptyConfig = .error "indexName not set" ∧
    (∃ r, SearchPlaceIndexForText emptyConfig
      { Text := some "eiffel", BiasPosition := none, FilterBBox := none
      , FilterCountries := [], Language := none } = .ok r) :=
  ⟨(sanity_check_only_on_index_mutations emptyConfig rfl).2.1,
   (sanity_check_only_on_index_mutations emptyConfig rfl).2.2.2.2.2.2.2
      { Text := some "eiffel", BiasPosition := none, FilterBBox := none
      , FilterCountries := [], Language := none }⟩

/-! ## Fixed defaults through the CLI (claim C9) -/

lemma createPlaceIndex_ok_fields (c : Config) (d : String)
    (t : List (String × String)) (req : CreatePlaceIndexInput)
    (h : CreatePlaceIndex c d t = .ok req) :
    req.dataSource = c.indexService ∧ req.pricingPlan = c.pricingPlan ∧
      req.intendedUse = c.intendedUse := by
  unfold CreatePlaceIndex at h
  cases hs : sanity c with
  | error e => rw [hs] at h; simp at h
  | ok u => rw [hs] at h; simp at h; subst h; simp

lemma updatePlaceIndex_ok_fields (c : Config) (d : String)
    (req : UpdatePlaceIndexInput) (h : UpdatePlaceIndex c d = .ok req) :
    req.pricingPlan = c.pricingPlan ∧ req.intendedUse = c.intendedUse := by
  unfold UpdatePlaceIndex at h
  cases hs : sanity c with
  | error e => rw [hs] at h; simp at h
  | ok u => rw [hs] at h; simp at h; subst h; simp

/-- C9. Every configuration built by the CLI `setup` carries the fixed
defaults DataSource "Here", PricingPlan "RequestBasedUsage", IntendedUse
"SingleUse" and language "en" — whatever the flags, the config-file
profile and region, and the environment region — because `setup` passes
only the logger, profile, region and index-name options to `New`; hence
every create-index and update-index request built through the CLI carries
those defaults, and every search request carries language "en". -/
theorem cli_fixed_defaults :
    ∀ (p r env : String) (f : Flags) (c : Config),
      setup p r f env = .ok c →
      (c.indexService = "Here" ∧ c.pricingPlan = "RequestBasedUsage" ∧
       c.intendedUse = "SingleUse" ∧ c.language = "en") ∧
      (∀ d t req, CreatePlaceIndex c d t = .ok req →
        req.dataSource = "Here" ∧ req.pricingPlan = "RequestBasedUsage" ∧
        req.intendedUse = "SingleUse") ∧
      (∀ d req, UpdatePlaceIndex c d = .ok req →
        req.pricingPlan = "RequestBasedUsage" ∧ req.intendedUse = "SingleUse") ∧
      (∀ s req, SearchPlaceIndexForSuggestions c s = .ok req →
        req.language = some "en") ∧
      (∀ s req, SearchPlaceIndexForText c s = .ok req →
        req.language = some "en") ∧
      (∀ ll req, SearchPlaceIndexForPosition c ll = .ok req →
        req.language = "en") := by
  intro p r env f c h
  by_cases hp : p = ""
  · simp [setup, hp] at h
  by_cases hr : r = ""
  · simp [setup, hp, hr] at h
  simp [setup, hp, hr] at h
  have hfields : c.indexService = "Here" ∧ c.pricingPlan = "RequestBasedUsage" ∧
      c.intendedUse = "SingleUse" ∧ c.language = "en" := by
    rw [← h]
    simp [New, SetLogger, SetAWSProfile, SetAWSRegion, SetIndexName,
      emptyConfig, hr]
  obtain ⟨hsvc, hplan, huse, hlang⟩ := hfields
  refine ⟨⟨hsvc, hplan, huse, hlang⟩, ?_, ?_, ?_, ?_, ?_⟩
  · intro d t req hreq
    obtain ⟨h1, h2, h3⟩ := createPlaceIndex_ok_fields c d t req hreq
    exact ⟨h1.trans hsvc, h2.trans hplan, h3.trans huse⟩
  · intro d req hreq
    obtain ⟨h1, h2⟩ := updatePlaceIndex_ok_fields c d req hreq
    exact ⟨h1.trans hplan, h2.trans huse⟩
  · intro s req hreq
    simp [SearchPlaceIndexForSuggestions] at hreq
    subst hreq
    simp [hlang]
  · intro s req hreq
    simp [SearchPlaceIndexForText] at hreq
    subst hreq
    simp [hlang]
  · intro ll req hreq
    simp [SearchPlaceIndexForPosition] at hreq
    subst hreq
    simp [hlang]

/-- Witness for `cli_fixed_defaults` at concrete setup inputs. -/
theorem cli_fixed_defaults_witness :
    (New "" [SetLogger, SetAWSProfile "prof", SetAWSRegion "reg",
        SetIndexName defaultFlags.indexName]).indexService = "Here" ∧
    (New "" [SetLogger, SetAWSProfile "prof", SetAWSRegion "reg",
        SetIndexName defaultFlags.indexName]).pricingPlan =
      "RequestBasedUsage" ∧
    (New "" [SetLogger, SetAWSProfile "prof", SetAWSRegion "reg",
        SetIndexName defaultFlags.indexName]).intendedUse = "SingleUse" ∧
    (New "" [SetLogger, SetAWSProfile "prof", SetAWSRegion "reg",
        SetIndexName defaultFlags.indexName]).language = "en" :=
  (cli_fixed_defaults "prof" "reg" "" defaultFlags _ rfl).1

/-! ## JSON round-trip (claim C8) -/

lemma decodeNumList_map (l : List ℚ) :
    decodeNumList (l.map Json.num) = some l := by
  induction l with
  | nil => rfl
  | cons q t ih => simp [decodeNumList, decodeNum, ih]

lemma decodeOptNumList_encode (o : Option (List ℚ)) :
    decodeOptNumList (encodeOptNumList o) = some o := by
  cases o with
  | none => rfl
  | some l => simp [encodeOptNumList, decodeOptNumList, decodeNumList_map]

lemma decodeOptString_encode (o : Option String) :
    decodeOpt decodeString (encodeOpt Json.str o) = some o := by
  cases o <;> rfl

lemma decodeOptBool_encode (o : Option Bool) :
    decodeOpt decodeBool (encodeOpt Json.bool o) = some o := by
  cases o <;> rfl

lemma decodeOptNum_encode (o : Option ℚ) :
    decodeOpt decodeNum (encodeOpt Json.num o) = some o := by
  cases o <;> rfl

lemma decodeGeometry_encode (g : PlaceGeometry) :
    decodeGeometry (encodeGeometry g) = some g := by
  simp [encodeGeometry, decodeGeometry, jGet, decodeOptNumList_encode]

lemma decodeOptGeometry_encode (o : Option PlaceGeometry) :
    decodeOpt decodeGeometry (encodeOpt encodeGeometry o) = some o := by
  cases o with
  | none => rfl
  | some g =>
    show (decodeGeometry (encodeGeometry g)).map some = some (some g)
    rw [decodeGeometry_encode]
    rfl

lemma decodePlace_encode (p : Place) : decodePlace (encodePlace p) = some p := by
  simp [encodePlace, decodePlace, jGet, decodeOptString_encode,
    decodeOptBool_encode, decodeOptGeometry_encode]

lemma decodeOptPlace_encode (o : Option Place) :
    decodeOpt decodePlace (encodeOpt encodePlace o) = some o := by
  cases o with
  | none => rfl
  | some p =>
    show (decodePlace (encodePlace p)).map some = some (some p)
    rw [decodePlace_encode]
    rfl

lemma decodeResult_encode (r : SearchForPositionResult) :
    decodeResult (encodeResult r) = some r := by
  simp [encodeResult, decodeResult, jGet, decodeOptNum_encode,
    decodeOptPlace_encode, decodeOptString_encode]

lemma decodeResultList_map (l : List SearchForPositionResult) :
    decodeResultList (l.map encodeResult) = some l := by
  induction l with
  | nil => rfl
  | cons r t ih => simp [decodeResultList, decodeResult_encode, ih]

lemma decodeSummary_encode (s : SearchPlaceIndexForPositionSummary) :
    decodeSummary (encodeSummary s) = some s := by
  simp [encodeSummary, decodeSummary, jGet, decodeOptString_encode,
    decodeOptNumList_encode, decodeInt, Rat.den_intCast, Rat.num_intCast]

lemma decodeOptSummary_encode (o : Option SearchPlaceIndexForPositionSummary) :
    decodeOpt decodeSummary (encodeOpt encodeSummary o) = some o := by
  cases o with
  | none => rfl
  | some s =>
    show (decodeSummary (encodeSummary s)).map some = some (some s)
    rw [decodeSummary_encode]
    rfl

/-- C8. JSON round-trip on the response envelope: encoding a
`PositionSummaryResults` value (the summary-plus-results envelope that
`runSearchPosition` marshals) and decoding the resulting document yields
back the same field values. -/
theorem envelope_json_roundtrip :
    ∀ e : PositionSummaryResults,
      decodeEnvelope (encodeEnvelope e) = some e := by
  intro e
  simp [encodeEnvelope, decodeEnvelope, jGet, decodeOptSummary_encode,
    decodeResultList_map]

end Goawsloc
